/-
Verification of the notebook viewer (`compas_notebook/viewer.py`) and the
scene-object plugin module (`compas_pythreejs/scene/__init__.py`) against
their natural-language specification.

The Python code is shallowly embedded as pure Lean functions over an explicit
`ViewerState`.  Mutation of `self.<attr>` becomes functional record update;
an attribute that the constructor never assigns is an `Option` field set to
`none`, and reading it raises `PyError.attributeError` exactly where Python
would.  Widget objects carry an identity tag (`id : Nat`) drawn from a
monotone allocation counter `nextId` in the state, so that "a fresh widget
was constructed" versus "the same widget object is preserved" is expressible.
Numeric camera parameters are rationals (`ℚ`); the pixel sizes in the config
are integers, matching the JSON configuration schema.
-/
import Mathlib

namespace CompasNotebook

/-- Camera section of the view configuration
(`view.camera:{position,up,near,far,fov,target}`); every field is optional
(`none` = absent from the configuration / `None` in Python). -/
structure CameraConfig where
  position : Option (List ℚ)
  up : Option (List ℚ)
  near : Option ℚ
  far : Option ℚ
  fov : Option ℚ
  target : Option (List ℚ)
  deriving Repr, DecidableEq

/-- `view` section of the configuration:
`view.{width,height,background,show_grid,show_axes,viewport,camera}`. -/
structure ViewConfig where
  width : Int
  height : Int
  background : String
  show_grid : Bool
  show_axes : Bool
  viewport : String
  camera : CameraConfig
  deriving Repr, DecidableEq

/-- One sidebar item descriptor: `{type, action, value, text}`. -/
structure SidebarItem where
  itemtype : String
  action : String
  value : Bool
  text : String
  deriving Repr, DecidableEq

/-- `ui.sidebar` section: `{show, items}`. -/
structure SidebarConfig where
  «show» : Bool
  items : List SidebarItem
  deriving Repr, DecidableEq

/-- `ui` section: `{show_toolbar, show_statusbar, sidebar}`. -/
structure UIConfig where
  show_toolbar : Bool
  show_statusbar : Bool
  sidebar : SidebarConfig
  deriving Repr, DecidableEq

/-- The full configuration object (read-only after construction). -/
structure Config where
  view : ViewConfig
  ui : UIConfig
  deriving Repr, DecidableEq

/-- Python truthiness-based fallback `x or d` for an optional number:
`None or d = d`, `0 or d = d`, and `v or d = v` for nonzero `v`. -/
def pyOrNum (x : Option ℚ) (d : ℚ) : ℚ :=
  match x with
  | some v => if v = 0 then d else v
  | none => d

/-- Python truthiness-based fallback `x or d` for an optional vector:
`None or d = d`, `[] or d = d`, and a nonempty list is returned as-is. -/
def pyOrVec (x : Option (List ℚ)) (d : List ℚ) : List ℚ :=
  match x with
  | some v => if v = [] then d else v
  | none => d

/-- A scene object of the external geometry framework: an opaque geometry
description together with the renderable-handle ("guid") list produced by
the most recent draw (empty before any draw). -/
structure SceneObject where
  geometry : Nat
  guids : List Nat
  deriving Repr, DecidableEq

/-- The external scene container: a context tag and the list of objects. -/
structure Scene where
  context : String
  objects : List SceneObject
  deriving Repr, DecidableEq

/-- `scene.draw()`: each object's renderable handles are (re)computed from
its geometry by the registered adapter; `render` stands for the external
adapter pipeline that turns a geometry into its handle list. -/
def Scene.draw (render : Nat → List Nat) (s : Scene) : Scene :=
  { s with objects := s.objects.map (fun o => { o with guids := render o.geometry }) }

/-- A child of the pythreejs scene graph: the grid helper, the axes helper
(each with an object identity), or a renderable handle copied from a scene
object. -/
inductive Obj3 where
  | grid (id : Nat)
  | axes (id : Nat)
  | guid (g : Nat)
  deriving Repr, DecidableEq

/-- The pythreejs `Scene` widget: identity, background color, children. -/
structure Scene3 where
  id : Nat
  background : String
  children : List Obj3
  deriving Repr, DecidableEq

/-- The pythreejs camera: orthographic (viewport "top") or perspective. -/
inductive Camera3 where
  | orthographic (left right top bottom near far : ℚ) (position : List ℚ) (zoom : ℚ)
  | perspective (position up : List ℚ) (aspect near far fov : ℚ) (target : List ℚ)
  deriving Repr, DecidableEq

/-- The pythreejs `OrbitControls`; `enableRotate` defaults to `true` in the
widget library and is only overridden in the "top" branch. -/
structure Controls3 where
  enableRotate : Bool
  maxDistance : ℚ
  minDistance : ℚ
  deriving Repr, DecidableEq

/-- The pythreejs `Renderer` widget (identity plus the scalar parameters the
viewer passes; the scene/camera/controls it wires up are the state's). -/
structure Renderer3 where
  id : Nat
  width : Int
  height : Int
  antialias : Bool
  deriving Repr, DecidableEq

/-- The status-bar `Text` widget: identity and displayed value.  It is the
one UI widget the viewer mutates after construction, so it is stored as a
separate heap cell and referenced from the widget tree by its id. -/
structure StatusText where
  id : Nat
  value : String
  deriving Repr, DecidableEq

/-- An ipywidgets widget tree.  Containers record the declared pixel height
of their layout (`none` when `layout.height` was never assigned). -/
inductive Widget where
  | vbox (id : Nat) (heightPx : Option Int) (children : List Widget)
  | hbox (id : Nat) (heightPx : Option Int) (children : List Widget)
  | gridbox (id : Nat) (heightPx : Option Int) (children : List Widget)
  | box (id : Nat) (heightPx : Option Int) (children : List Widget)
  | button (id : Nat) (icon : String) (action : String)
  | checkbox (id : Nat) (value : Bool) (description : String)
  | textRef (textId : Nat)
  | rendererRef (rendererId : Nat)

/-- Python exceptions the embedded code can raise. -/
inductive PyError where
  | attributeError (name : String)
  | notImplementedError
  deriving Repr, DecidableEq

/-- The state of a `Viewer` instance.  `Option` fields are `none` when the
corresponding `self.<attr>` is unassigned (or assigned `None`); `nextId` is
the allocation counter supplying widget identities; `displayed` records the
widget trees handed to the notebook display mechanism. -/
structure ViewerState where
  config : Config
  scene : Scene
  toolbar : Option Widget
  main : Option Widget
  statusbar : Option Widget
  statustext : Option StatusText
  scene3 : Option Scene3
  grid3 : Option Obj3
  axes3 : Option Obj3
  camera3 : Option Camera3
  controls3 : Option Controls3
  renderer3 : Option Renderer3
  ui : Option Widget
  nextId : Nat
  displayed : List Widget

/-- `Viewer.__init__`: stores the configuration, scene and controller, and
assigns `None` to the UI slots.  The WebGL attributes (`scene3`, `grid3`,
`axes3`, `camera3`, `controls3`, `renderer3`, `ui`) are never assigned here. -/
def Viewer.init (config : Config) (scene : Scene) : ViewerState :=
  { config := config
    scene := scene
    toolbar := none
    main := none
    statusbar := none
    statustext := none
    scene3 := none
    grid3 := none
    axes3 := none
    camera3 := none
    controls3 := none
    renderer3 := none
    ui := none
    nextId := 0
    displayed := [] }

/-- `Viewer.init_webgl`: builds the pythreejs scene (with grid and axes
helpers per the configuration flags), then the camera and controls according
to the configured viewport ("top" → orthographic, "perspective" →
perspective, anything else → `NotImplementedError`), then the renderer.
On the error branch the already-assigned attributes keep their new values,
as in Python, and `renderer3` is left untouched. -/
def Viewer.init_webgl (s : ViewerState) : ViewerState × Option PyError :=
  let width : Int := s.config.view.width
  let height : Int := s.config.view.height
  let aspect : ℚ := (width : ℚ) / (height : ℚ)
  let sc3Id := s.nextId
  let n1 := s.nextId + 1
  let (grid3, n2, children1) :=
    if s.config.view.show_grid then
      (some (Obj3.grid n1), n1 + 1, [Obj3.grid n1])
    else
      (s.grid3, n1, ([] : List Obj3))
  let (axes3, n3, children2) :=
    if s.config.view.show_axes then
      (some (Obj3.axes n2), n2 + 1, children1 ++ [Obj3.axes n2])
    else
      (s.axes3, n2, children1)
  let scene3 : Scene3 := { id := sc3Id, background := s.config.view.background, children := children2 }
  if s.config.view.viewport = "top" then
    let camera3 : Camera3 :=
      Camera3.orthographic (-(width : ℚ) / 2) ((width : ℚ) / 2) ((height : ℚ) / 2)
        (-(height : ℚ) / 2) (1 / 10) 10000
        (pyOrVec s.config.view.camera.position [0, 0, 1]) 1
    let controls3 : Controls3 := { enableRotate := false, maxDistance := 1000, minDistance := 1 / 10 }
    let renderer3 : Renderer3 := { id := n3, width := width, height := height, antialias := true }
    ({ s with scene3 := some scene3, grid3 := grid3, axes3 := axes3,
              camera3 := some camera3, controls3 := some controls3,
              renderer3 := some renderer3, nextId := n3 + 1 }, none)
  else if s.config.view.viewport = "perspective" then
    let camera3 : Camera3 :=
      Camera3.perspective
        (pyOrVec s.config.view.camera.position [0, -10, 5])
        (pyOrVec s.config.view.camera.up [0, 0, 1])
        aspect
        (pyOrNum s.config.view.camera.near (1 / 10))
        (pyOrNum s.config.view.camera.far 1000)
        (pyOrNum s.config.view.camera.fov 50)
        (pyOrVec s.config.view.camera.target [0, 0, 0])
    let controls3 : Controls3 := { enableRotate := true, maxDistance := 1000, minDistance := 1 / 10 }
    let renderer3 : Renderer3 := { id := n3, width := width, height := height, antialias := true }
    ({ s with scene3 := some scene3, grid3 := grid3, axes3 := axes3,
              camera3 := some camera3, controls3 := some controls3,
              renderer3 := some renderer3, nextId := n3 + 1 }, none)
  else
    ({ s with scene3 := some scene3, grid3 := grid3, axes3 := axes3, nextId := n3 },
     some PyError.notImplementedError)

/-- `Viewer.make_toolbar`: four fixed buttons (load scene, save scene, zoom
in, zoom out), each delegating on click to the like-named controller method,
wrapped in a 48px-high `HBox`.  `n` is the allocation counter; the result is
the toolbar widget and the advanced counter. -/
def make_toolbar (n : Nat) : Widget × Nat :=
  (Widget.hbox (n + 4) (some 48)
    [Widget.button n "folder-open" "load_scene",
     Widget.button (n + 1) "save" "save_scene",
     Widget.button (n + 2) "search-plus" "zoom_in",
     Widget.button (n + 3) "search-minus" "zoom_out"], n + 5)

/-- The checkbox-building loop of `Viewer.make_sidebar`: one checkbox per
item whose `type` is `"checkbox"` (value and description from the item);
items of any other type are skipped. -/
def make_sidebar_children (items : List SidebarItem) (n : Nat) : List Widget × Nat :=
  match items with
  | [] => ([], n)
  | it :: rest =>
    if it.itemtype = "checkbox" then
      let tail := make_sidebar_children rest (n + 1)
      (Widget.checkbox n it.value it.text :: tail.1, tail.2)
    else
      make_sidebar_children rest n

/-- `Viewer.make_sidebar`: a `GridBox` of height `view.height + 4` holding
the checkboxes built from the configured sidebar items. -/
def make_sidebar (cfg : Config) (n : Nat) : Widget × Nat :=
  let cs := make_sidebar_children cfg.ui.sidebar.items (n + 1)
  (Widget.gridbox n (some (cfg.view.height + 4)) cs.1, cs.2)

/-- `Viewer.make_view3d`: a `Box` of height `view.height + 4` whose single
child is `self.renderer3`; reading that attribute before `init_webgl` ever
ran raises `AttributeError`. -/
def make_view3d (cfg : Config) (renderer3 : Option Renderer3) (n : Nat) :
    Except PyError (Widget × Nat) :=
  match renderer3 with
  | none => Except.error (PyError.attributeError "renderer3")
  | some r =>
    Except.ok (Widget.box n (some (cfg.view.height + 4)) [Widget.rendererRef r.id], n + 1)

/-- `Viewer.make_main`: an `HBox` of height `view.height + 4` holding the
sidebar (only if `ui.sidebar.show`) followed by the 3D view. -/
def make_main (cfg : Config) (renderer3 : Option Renderer3) (n : Nat) :
    Except PyError (Widget × Nat) :=
  let sb :=
    if cfg.ui.sidebar.«show» then
      let w := make_sidebar cfg n
      ([w.1], w.2)
    else
      (([] : List Widget), n)
  match make_view3d cfg renderer3 sb.2 with
  | Except.error e => Except.error e
  | Except.ok (v3, n') =>
    Except.ok (Widget.hbox n' (some (cfg.view.height + 4)) (sb.1 ++ [v3]), n' + 1)

/-- `Viewer.make_statusbar`: a disabled `Text` widget with empty value
(stored into `self.statustext`) inside a 48px-high `HBox`. -/
def make_statusbar (n : Nat) : Widget × StatusText × Nat :=
  ((Widget.hbox (n + 1) (some 48) [Widget.textRef n]), { id := n, value := "" }, n + 2)

/-- `Viewer.init_ui`: builds the root `VBox`.  Children are the toolbar
(only if `ui.show_toolbar`), the main row, and the status bar (only if
`ui.show_statusbar`); the declared height is `view.height`, plus 64 when the
toolbar is included, plus 48 when the status bar is included, plus 4.
When `make_main` raises (no renderer), `self.ui` has already been assigned
an empty `VBox` and the toolbar slot its new value, as in Python. -/
def Viewer.init_ui (s : ViewerState) : ViewerState × Option PyError :=
  let uiId := s.nextId
  let n0 := s.nextId + 1
  let height0 : Int := s.config.view.height
  let tb :=
    if s.config.ui.show_toolbar then
      let w := make_toolbar n0
      (some w.1, w.2, height0 + 64)
    else
      ((none : Option Widget), n0, height0)
  let toolbar' := match tb.1 with | some w => some w | none => s.toolbar
  let childrenA := match tb.1 with | some w => [w] | none => []
  match make_main s.config s.renderer3 tb.2.1 with
  | Except.error e =>
    ({ s with ui := some (Widget.vbox uiId none []), toolbar := toolbar', nextId := tb.2.1 },
     some e)
  | Except.ok (mainW, n2) =>
    let sb :=
      if s.config.ui.show_statusbar then
        let w := make_statusbar n2
        (some w.1, some w.2.1, w.2.2, tb.2.2 + 48)
      else
        ((none : Option Widget), s.statustext, n2, tb.2.2)
    let statusbar' := match sb.1 with | some w => some w | none => s.statusbar
    let childrenC := match sb.1 with | some w => [w] | none => []
    ({ s with
        ui := some (Widget.vbox uiId (some (sb.2.2.2 + 4)) (childrenA ++ [mainW] ++ childrenC))
        toolbar := toolbar'
        main := some mainW
        statusbar := statusbar'
        statustext := sb.2.1
        nextId := sb.2.2.1 }, none)

/-- `Viewer.show`: `init_webgl`, `init_ui`, one full `scene.draw()`, copy of
every object's renderable handles into the 3D scene graph, then hand the
composed widget tree to the notebook display mechanism.  An exception in
`init_webgl` propagates before any of the later stages run. -/
def Viewer.«show» (render : Nat → List Nat) (s : ViewerState) : ViewerState × Option PyError :=
  match Viewer.init_webgl s with
  | (s1, some e) => (s1, some e)
  | (s1, none) =>
    match Viewer.init_ui s1 with
    | (s2, some e) => (s2, some e)
    | (s2, none) =>
      let scene' := Scene.draw render s2.scene
      let s3 := { s2 with scene := scene' }
      match s3.scene3 with
      | none => (s3, some (PyError.attributeError "scene3"))
      | some sc3 =>
        let guidObjs := (scene'.objects.map (fun o => o.guids)).flatten.map Obj3.guid
        let s4 := { s3 with scene3 := some { sc3 with children := sc3.children ++ guidObjs } }
        match s4.ui with
        | none => (s4, some (PyError.attributeError "ui"))
        | some u => ({ s4 with displayed := s4.displayed ++ [u] }, none)

/-- `Viewer.update`: removes every child of the 3D scene graph, re-adds the
grid and axes helpers per the configuration flags, re-runs `scene.draw()`,
and re-attaches every object's renderable handles.  Reading an attribute
that was never assigned (`scene3` before `init_webgl`; `grid3`/`axes3` when
the corresponding flag was off at `init_webgl` time) raises
`AttributeError` at the corresponding point, leaving the children cleared. -/
def Viewer.update (render : Nat → List Nat) (s : ViewerState) : ViewerState × Option PyError :=
  match s.scene3 with
  | none => (s, some (PyError.attributeError "scene3"))
  | some sc3 =>
    let base := { sc3 with children := ([] : List Obj3) }
    let stepGrid : List Obj3 × Option PyError :=
      if s.config.view.show_grid then
        match s.grid3 with
        | some g => ([g], none)
        | none => ([], some (PyError.attributeError "grid3"))
      else
        ([], none)
    match stepGrid with
    | (cs, some e) => ({ s with scene3 := some { base with children := cs } }, some e)
    | (cs1, none) =>
      let stepAxes : List Obj3 × Option PyError :=
        if s.config.view.show_axes then
          match s.axes3 with
          | some a => (cs1 ++ [a], none)
          | none => (cs1, some (PyError.attributeError "axes3"))
        else
          (cs1, none)
      match stepAxes with
      | (cs, some e) => ({ s with scene3 := some { base with children := cs } }, some e)
      | (cs2, none) =>
        let scene' := Scene.draw render s.scene
        let guidObjs := (scene'.objects.map (fun o => o.guids)).flatten.map Obj3.guid
        ({ s with scene := scene',
                  scene3 := some { base with children := cs2 ++ guidObjs } }, none)

/-- `Viewer.set_statustext`: sets the status-text widget's value if the
`statustext` attribute holds a widget; if it is still `None` (no status bar
was ever created), the `if self.statustext:` guard makes it a no-op. -/
def Viewer.set_statustext (s : ViewerState) (text : String) : ViewerState :=
  match s.statustext with
  | some st => { s with statustext := some { st with value := text } }
  | none => s

/-- The checkbox observer closures of `Viewer.make_sidebar`.  In Python the
loop body defines `def action(x): f = getattr(self.controller, item["action"]); f(x)`;
every such closure shares the single binding of the loop variable `item`,
and the `getattr` lookup happens only when the observer fires — after
`make_sidebar` has returned, when `item` holds the last element of `items`.
`checkboxObserverAction items i` is therefore the controller-method name the
`i`-th built checkbox invokes on a value change (`none` when fewer than
`i + 1` checkboxes were built). -/
def checkboxObserverAction (items : List SidebarItem) (i : Nat) : Option String :=
  if i < (items.filter (fun it => it.itemtype == "checkbox")).length then
    (items.getLast?).map (fun it => it.action)
  else
    none

/-- The `i`-th checkbox item descriptor among `items` (the item whose
checkbox is the `i`-th child of the sidebar). -/
def checkboxItem (items : List SidebarItem) (i : Nat) : Option SidebarItem :=
  (items.filter (fun it => it.itemtype == "checkbox")).get? i

/-- Modelled from the spec: one entry of the external framework's global
type→adapter registry (`compas.scene.register` and its lookup table are not
part of this repository's sources): a (geometry-type, adapter-class,
context-string) triple. -/
structure RegistryEntry where
  itemtype : String
  sceneobject : String
  context : String
  deriving Repr, DecidableEq

/-- Modelled from the spec: the process-wide registry owned by the external
framework, most recent registration first. -/
abbrev Registry := List RegistryEntry

/-- Modelled from the spec: `register(item_type, sceneobject_type, context)`
associates the geometry type with the adapter class under the context key. -/
def register (itemtype sceneobject context : String) (reg : Registry) : Registry :=
  { itemtype := itemtype, sceneobject := sceneobject, context := context } :: reg

/-- Modelled from the spec: retrieval of the adapter class registered for a
(geometry type, context) key. -/
def lookupSceneObject (reg : Registry) (itemtype context : String) : Option String :=
  (reg.find? (fun e => e.itemtype == itemtype && e.context == context)).map
    (fun e => e.sceneobject)

/-- The `register_scene_objects` factory plugin of
`compas_pythreejs/scene/__init__.py`: the only active registration is
`register(Box, BoxObject, context="Notebook")` (all other lines are
commented out). -/
def register_scene_objects (reg : Registry) : Registry :=
  register "Box" "BoxObject" "Notebook" reg

/-- The effect of importing the scene-object plugin module on the external
registry.  Modelled from the spec: the `@plugin` decorators hand the hooks
to the external framework's plugin manager, which runs the `factories`
plugin `register_scene_objects` to populate its type→adapter table. -/
def moduleImport (reg : Registry) : Registry :=
  register_scene_objects reg

/-- The `clear` plugin hook `clear_pythreejs(guids=None)`: its body is
`pass`, so the external state is returned unchanged. -/
def clear_pythreejs (_guids : Option (List Nat)) (reg : Registry) : Registry :=
  reg

/-- The `redraw` plugin hook `redraw_pythreejs()`: its body is `pass`, so
the external state is returned unchanged. -/
def redraw_pythreejs (reg : Registry) : Registry :=
  reg

mutual

/-- Zeroes every widget identity tag; two trees equal after erasure are
structurally identical up to object identity. -/
def Widget.eraseIds : Widget → Widget
  | .vbox _ h cs => .vbox 0 h (eraseIdsList cs)
  | .hbox _ h cs => .hbox 0 h (eraseIdsList cs)
  | .gridbox _ h cs => .gridbox 0 h (eraseIdsList cs)
  | .box _ h cs => .box 0 h (eraseIdsList cs)
  | .button _ i a => .button 0 i a
  | .checkbox _ v d => .checkbox 0 v d
  | .textRef _ => .textRef 0
  | .rendererRef _ => .rendererRef 0

/-- `Widget.eraseIds` mapped over a list of children. -/
def eraseIdsList : List Widget → List Widget
  | [] => []
  | w :: ws => Widget.eraseIds w :: eraseIdsList ws

end

/-- Zeroes the identity of a scene-graph child (renderable handles are kept:
they are the external framework's own identifiers). -/
def Obj3.eraseId : Obj3 → Obj3
  | .grid _ => .grid 0
  | .axes _ => .axes 0
  | .guid g => .guid g

/-- Zeroes the identities inside the pythreejs scene widget. -/
def Scene3.eraseIds (sc : Scene3) : Scene3 :=
  { sc with id := 0, children := sc.children.map Obj3.eraseId }

/-- The observable state of a viewer: every widget identity zeroed, and the
bookkeeping fields (`nextId`, the display log) cleared.  Two viewers with
equal observable states are indistinguishable except for which concrete
widget objects realize them. -/
def ViewerState.observable (s : ViewerState) : ViewerState :=
  { s with
      toolbar := s.toolbar.map Widget.eraseIds
      main := s.main.map Widget.eraseIds
      statusbar := s.statusbar.map Widget.eraseIds
      statustext := s.statustext.map (fun st => { st with id := 0 })
      scene3 := s.scene3.map Scene3.eraseIds
      grid3 := s.grid3.map Obj3.eraseId
      axes3 := s.axes3.map Obj3.eraseId
      renderer3 := s.renderer3.map (fun r => { r with id := 0 })
      ui := s.ui.map Widget.eraseIds
      nextId := 0
      displayed := [] }

/-! Concrete fixtures used by witnesses and counterexamples. -/

/-- A camera configuration with every optional parameter unset. -/
def cameraUnset : CameraConfig :=
  { position := none, up := none, near := none, far := none, fov := none, target := none }

/-- Two checkbox sidebar items bound to distinct controller methods. -/
def itemsTwo : List SidebarItem :=
  [{ itemtype := "checkbox", action := "toggle_grid", value := true, text := "Grid" },
   { itemtype := "checkbox", action := "toggle_axes", value := true, text := "Axes" }]

/-- A full-featured perspective configuration: every panel enabled. -/
def cfg0 : Config :=
  { view := { width := 800, height := 500, background := "#eeeeee", show_grid := true,
              show_axes := true, viewport := "perspective", camera := cameraUnset }
    ui := { show_toolbar := true, show_statusbar := true,
            sidebar := { «show» := true, items := itemsTwo } } }

/-- A two-object scene (geometries `7` and `9`, no handles drawn yet). -/
def scene0 : Scene :=
  { context := "Notebook", objects := [⟨7, []⟩, ⟨9, []⟩] }

/-- A concrete stand-in for the external adapter pipeline: geometry `g`
draws to the two handles `2*g` and `2*g + 1`. -/
def render0 : Nat → List Nat :=
  fun g => [g * 2, g * 2 + 1]

/-- A configuration like `cfg0` but with the unsupported viewport "front". -/
def cfgFront : Config :=
  { cfg0 with view := { cfg0.view with viewport := "front" } }

/-- A configuration like `cfg0` but with the "top" viewport. -/
def cfgTop : Config :=
  { cfg0 with view := { cfg0.view with viewport := "top" } }

/-- A perspective configuration whose camera `near` is set — to `0`. -/
def cfgNearZero : Config :=
  { cfg0 with view := { cfg0.view with camera := { cameraUnset with near := some 0 } } }

/-- A minimal viewer state whose scene graph holds one stale child and whose
grid/axes helpers exist. -/
def stateStale : ViewerState :=
  { Viewer.init cfg0 scene0 with
      scene3 := some { id := 3, background := "#eeeeee", children := [Obj3.guid 99] }
      grid3 := some (Obj3.grid 1)
      axes3 := some (Obj3.axes 2) }

/-- A freshly constructed viewer with a renderer already present. -/
def stateWithRenderer : ViewerState :=
  { Viewer.init cfg0 scene0 with
      renderer3 := some { id := 5, width := 800, height := 500, antialias := true } }

/-- Discriminator: is the camera an orthographic projection? -/
def Camera3.isOrthographic : Camera3 → Bool
  | .orthographic .. => true
  | .perspective .. => false

/-- Discriminator: is the camera a perspective projection? -/
def Camera3.isPerspective : Camera3 → Bool
  | .orthographic .. => false
  | .perspective .. => true

/-- The near-plane distance of a camera. -/
def Camera3.nearOf : Camera3 → ℚ
  | .orthographic _ _ _ _ n _ _ _ => n
  | .perspective _ _ _ n _ _ _ => n

/-- The identity-erased sidebar children: one zero-id checkbox per item of
type `"checkbox"`. -/
def canonSidebarChildren : List SidebarItem → List Widget
  | [] => []
  | it :: rest =>
    if it.itemtype = "checkbox" then
      Widget.checkbox 0 it.value it.text :: canonSidebarChildren rest
    else
      canonSidebarChildren rest

/-! Claims. -/

/-- C1: the claim says each checkbox dispatches to its own item's `action`
method.  In the code, every `action` closure shares the loop variable
`item`, which holds the last item once the loop is over, so with the two
items of `itemsTwo` the first checkbox (built for the `"toggle_grid"` item)
invokes `"toggle_axes"` — the second item's method — on a value change. -/
theorem checkbox_dispatch_goes_to_last_item :
    checkboxObserverAction itemsTwo 0 = some "toggle_axes" ∧
    (checkboxItem itemsTwo 0).map (fun it => it.action) = some "toggle_grid" ∧
    checkboxObserverAction itemsTwo 0 ≠ (checkboxItem itemsTwo 0).map (fun it => it.action) := by
  refine ⟨rfl, rfl, ?_⟩
  decide

/-- C9: running the module's plugin registration associates `Box` with
`BoxObject` under context `"Notebook"` in the external registry, making the
adapter retrievable by that key whatever was registered before, and the
`clear`/`redraw` hooks leave every state unchanged. -/
theorem register_box_under_notebook (reg : Registry) (g : Option (List Nat)) :
    lookupSceneObject (moduleImport reg) "Box" "Notebook" = some "BoxObject" ∧
    clear_pythreejs g reg = reg ∧
    redraw_pythreejs reg = reg := by
  refine ⟨?_, rfl, rfl⟩
  simp [moduleImport, register_scene_objects, register, lookupSceneObject, List.find?]

/-- C10: the constructor leaves `scene3` (and the grid/axes helpers)
unassigned, so `update()` on a viewer on which `show()`/`init_webgl` never
ran raises `AttributeError` at the very first attribute read and changes
nothing. -/
theorem update_before_show_attribute_error (cfg : Config) (scene : Scene)
    (render : Nat → List Nat) :
    (Viewer.init cfg scene).scene3 = none ∧
    (Viewer.init cfg scene).grid3 = none ∧
    (Viewer.init cfg scene).axes3 = none ∧
    Viewer.update render (Viewer.init cfg scene) =
      (Viewer.init cfg scene, some (PyError.attributeError "scene3")) :=
  ⟨rfl, rfl, rfl, rfl⟩

/-- C3: for a configured viewport other than "top" and "perspective",
`show()` raises `NotImplementedError` during camera setup: the renderer is
never constructed, the camera/controls are never assigned, the UI tree is
never built, and nothing is displayed. -/
theorem show_unknown_viewport_raises (cfg : Config) (scene : Scene) (render : Nat → List Nat)
    (h1 : cfg.view.viewport ≠ "top") (h2 : cfg.view.viewport ≠ "perspective") :
    Viewer.«show» render (Viewer.init cfg scene) =
      ((Viewer.init_webgl (Viewer.init cfg scene)).1, some PyError.notImplementedError) ∧
    (Viewer.«show» render (Viewer.init cfg scene)).1.renderer3 = none ∧
    (Viewer.«show» render (Viewer.init cfg scene)).1.camera3 = none ∧
    (Viewer.«show» render (Viewer.init cfg scene)).1.controls3 = none ∧
    (Viewer.«show» render (Viewer.init cfg scene)).1.ui = none ∧
    (Viewer.«show» render (Viewer.init cfg scene)).1.displayed = [] := by
  obtain ⟨⟨w, h, bg, sg, sa, vp, cam⟩, ⟨tb, stb, ⟨sbs, items⟩⟩⟩ := cfg
  simp only [] at h1 h2
  cases sg <;> cases sa <;>
    simp [Viewer.«show», Viewer.init_webgl, Viewer.init, h1, h2]

/-- C3 witness: at the concrete "front" viewport the error is raised with
renderer, camera, controls and UI all absent. -/
theorem show_unknown_viewport_raises_witness :
    cfgFront.view.viewport ≠ "top" ∧ cfgFront.view.viewport ≠ "perspective" ∧
    ((Viewer.«show» render0 (Viewer.init cfgFront scene0)).2 =
        some PyError.notImplementedError ∧
      (Viewer.«show» render0 (Viewer.init cfgFront scene0)).1.renderer3 = none ∧
      (Viewer.«show» render0 (Viewer.init cfgFront scene0)).1.ui = none) := by
  refine ⟨by decide, by decide, ?_⟩
  have h := show_unknown_viewport_raises cfgFront scene0 render0 (by decide) (by decide)
  exact ⟨by rw [h.1], h.2.1, h.2.2.2.2.1⟩

/-- C4 (amended): `update()` does not rebuild the UI widget tree at all —
the root container, toolbar, main row, status bar and status text slots all
keep their previous widgets, identities included, as does the renderer; only
the 3D scene graph keeps its identity while its children list is recomputed. -/
theorem update_preserves_ui_tree (render : Nat → List Nat) (s : ViewerState) :
    (Viewer.update render s).1.ui = s.ui ∧
    (Viewer.update render s).1.toolbar = s.toolbar ∧
    (Viewer.update render s).1.main = s.main ∧
    (Viewer.update render s).1.statusbar = s.statusbar ∧
    (Viewer.update render s).1.statustext = s.statustext ∧
    (Viewer.update render s).1.renderer3 = s.renderer3 ∧
    (Viewer.update render s).1.nextId = s.nextId ∧
    ((Viewer.update render s).1.scene3).map Scene3.id = (s.scene3).map Scene3.id := by
  cases h3 : s.scene3 <;> cases hg : s.config.view.show_grid <;>
    cases hgr : s.grid3 <;> cases ha : s.config.view.show_axes <;> cases hax : s.axes3 <;>
      simp [Viewer.update, h3, hg, hgr, ha, hax]

/-- C4 counterexample: after a full `show()` on the concrete configuration
(toolbar, sidebar and status bar all enabled), a call to `update()` returns
with the root UI widget — identities and all — unchanged, so the UI widget
tree is not rebuilt and widget identity is preserved, contrary to the claim. -/
theorem update_does_not_rebuild_ui :
    ((Viewer.«show» render0 (Viewer.init cfg0 scene0)).1.ui).isSome = true ∧
    (Viewer.update render0 (Viewer.«show» render0 (Viewer.init cfg0 scene0)).1).1.ui =
      (Viewer.«show» render0 (Viewer.init cfg0 scene0)).1.ui ∧
    (Viewer.update render0 (Viewer.«show» render0 (Viewer.init cfg0 scene0)).1).1.toolbar =
      (Viewer.«show» render0 (Viewer.init cfg0 scene0)).1.toolbar :=
  ⟨rfl, rfl, rfl⟩

/-- C8: `set_statustext` writes the given text into the status-text widget
when the status bar was created (flag on, UI built by `show`), and is a
complete no-op — the whole state unchanged — when no status bar exists
(flag off, or the UI was never built). -/
theorem set_statustext_sets_or_noop (cfg : Config) (scene : Scene) (render : Nat → List Nat)
    (t : String)
    (hvp : cfg.view.viewport = "top" ∨ cfg.view.viewport = "perspective") :
    Viewer.set_statustext (Viewer.init cfg scene) t = Viewer.init cfg scene ∧
    (cfg.ui.show_statusbar = true →
      ∃ st : StatusText,
        (Viewer.«show» render (Viewer.init cfg scene)).1.statustext = some st ∧
        Viewer.set_statustext (Viewer.«show» render (Viewer.init cfg scene)).1 t =
          { (Viewer.«show» render (Viewer.init cfg scene)).1 with
              statustext := some { st with value := t } }) ∧
    (cfg.ui.show_statusbar = false →
      (Viewer.«show» render (Viewer.init cfg scene)).1.statustext = none ∧
      Viewer.set_statustext (Viewer.«show» render (Viewer.init cfg scene)).1 t =
        (Viewer.«show» render (Viewer.init cfg scene)).1) := by
  obtain ⟨⟨w, h, bg, sg, sa, vp, cam⟩, ⟨tb, stb, ⟨sbs, items⟩⟩⟩ := cfg
  refine ⟨rfl, ?_, ?_⟩ <;> intro hstb <;> simp only [] at hstb hvp <;> subst hstb <;>
    rcases hvp with hvp | hvp <;> subst hvp <;>
      cases sg <;> cases sa <;> cases tb <;> cases sbs <;>
        first
          | exact ⟨_, rfl, rfl⟩
          | exact ⟨rfl, rfl⟩

/-- C8 witness: with the status bar enabled (`cfg0`) the text is written;
with it disabled, and before any `show`, the call is a no-op. -/
theorem set_statustext_sets_or_noop_witness :
    (cfg0.view.viewport = "top" ∨ cfg0.view.viewport = "perspective") ∧
    Viewer.set_statustext (Viewer.init cfg0 scene0) "hello" = Viewer.init cfg0 scene0 ∧
    (∃ st : StatusText,
      (Viewer.«show» render0 (Viewer.init cfg0 scene0)).1.statustext = some st ∧
      Viewer.set_statustext (Viewer.«show» render0 (Viewer.init cfg0 scene0)).1 "hello" =
        { (Viewer.«show» render0 (Viewer.init cfg0 scene0)).1 with
            statustext := some { st with value := "hello" } }) := by
  have h := set_statustext_sets_or_noop cfg0 scene0 render0 "hello" (Or.inr rfl)
  exact ⟨Or.inr rfl, h.1, h.2.1 rfl⟩

/-- C2: a call to `update()` on a viewer whose scene graph exists (and whose
helper objects exist whenever their flag is on) succeeds, and afterwards the
scene-graph children are exactly: the grid helper iff `show_grid`, then the
axes helper iff `show_axes`, then the concatenated guid lists of all scene
objects after the draw, in that order — independent of whatever children
were present before the call. -/
theorem update_children_exact (render : Nat → List Nat) (s : ViewerState) (sc3 : Scene3)
    (h3 : s.scene3 = some sc3)
    (hg : s.config.view.show_grid = true → (s.grid3).isSome = true)
    (ha : s.config.view.show_axes = true → (s.axes3).isSome = true) :
    (Viewer.update render s).2 = none ∧
    (Viewer.update render s).1.scene3 = some { sc3 with children :=
      (if s.config.view.show_grid then (s.grid3).toList else []) ++
      (if s.config.view.show_axes then (s.axes3).toList else []) ++
      (((Scene.draw render s.scene).objects.map (fun o => o.guids)).flatten.map Obj3.guid) } ∧
    (Viewer.update render s).1.scene = Scene.draw render s.scene := by
  cases hgf : s.config.view.show_grid <;> cases haf : s.config.view.show_axes
  case false.false =>
    simp [Viewer.update, h3, hgf, haf]
  case false.true =>
    obtain ⟨a, hax⟩ := Option.isSome_iff_exists.mp (ha haf)
    simp [Viewer.update, h3, hgf, haf, hax]
  case true.false =>
    obtain ⟨g, hgr⟩ := Option.isSome_iff_exists.mp (hg hgf)
    simp [Viewer.update, h3, hgf, haf, hgr]
  case true.true =>
    obtain ⟨g, hgr⟩ := Option.isSome_iff_exists.mp (hg hgf)
    obtain ⟨a, hax⟩ := Option.isSome_iff_exists.mp (ha haf)
    simp [Viewer.update, h3, hgf, haf, hgr, hax]

/-- C2 witness: updating a concrete state with a stale child yields exactly
grid helper, axes helper, then the drawn handles of the two objects; the
stale child (guid 99) is gone. -/
theorem update_children_exact_witness :
    stateStale.scene3 = some { id := 3, background := "#eeeeee", children := [Obj3.guid 99] } ∧
    (Viewer.update render0 stateStale).2 = none ∧
    (Viewer.update render0 stateStale).1.scene3 =
      some { id := 3, background := "#eeeeee",
             children := [Obj3.grid 1, Obj3.axes 2, Obj3.guid 14, Obj3.guid 15,
               Obj3.guid 18, Obj3.guid 19] } := by
  have h := update_children_exact render0 stateStale
    { id := 3, background := "#eeeeee", children := [Obj3.guid 99] } rfl
    (fun _ => rfl) (fun _ => rfl)
  exact ⟨rfl, h.1, h.2.1⟩

/-- Erasing identities commutes with the sidebar checkbox construction: the
erased checkbox list depends only on the item descriptors, not on the
allocation counter. -/
theorem eraseIdsList_make_sidebar_children (items : List SidebarItem) (n : Nat) :
    eraseIdsList (make_sidebar_children items n).1 = canonSidebarChildren items := by
  induction items generalizing n with
  | nil => rfl
  | cons it rest ih =>
    by_cases hit : it.itemtype = "checkbox" <;>
      simp [make_sidebar_children, canonSidebarChildren, hit, eraseIdsList, Widget.eraseIds, ih]

/-- C6: the composed UI tree built by `init_ui` declares height
`view.height + 64·[toolbar] + 48·[statusbar] + 4`; the toolbar and status
bar appear among the root children exactly when their flags are set (before
and after the main row respectively), the sidebar appears in the main row
exactly when its flag is set (before the 3D view), and the sidebar flag does
not enter the height formula.  Stated on the identity-erased tree, which
determines everything about the built widgets except object identity. -/
theorem init_ui_height_and_panels (s : ViewerState) (r : Renderer3)
    (hr : s.renderer3 = some r) :
    (Viewer.init_ui s).2 = none ∧
    ((Viewer.init_ui s).1.ui).map Widget.eraseIds = some (Widget.vbox 0
      (some (s.config.view.height
        + (if s.config.ui.show_toolbar then 64 else 0)
        + (if s.config.ui.show_statusbar then 48 else 0) + 4))
      ((if s.config.ui.show_toolbar then
          [Widget.hbox 0 (some 48)
            [Widget.button 0 "folder-open" "load_scene", Widget.button 0 "save" "save_scene",
             Widget.button 0 "search-plus" "zoom_in", Widget.button 0 "search-minus" "zoom_out"]]
        else [])
        ++ [Widget.hbox 0 (some (s.config.view.height + 4))
              ((if s.config.ui.sidebar.«show» then
                  [Widget.gridbox 0 (some (s.config.view.height + 4))
                    (canonSidebarChildren s.config.ui.sidebar.items)]
                else [])
                ++ [Widget.box 0 (some (s.config.view.height + 4)) [Widget.rendererRef 0]])]
        ++ (if s.config.ui.show_statusbar then
              [Widget.hbox 0 (some 48) [Widget.textRef 0]]
            else []))) := by
  cases htb : s.config.ui.show_toolbar <;> cases hsb : s.config.ui.show_statusbar <;>
    cases hsd : s.config.ui.sidebar.«show» <;>
      simp [Viewer.init_ui, make_main, make_view3d, make_sidebar, make_toolbar, make_statusbar,
        hr, htb, hsb, hsd, Widget.eraseIds, eraseIdsList, eraseIdsList_make_sidebar_children]

/-- C6 witness: with all three panels enabled on the concrete configuration
the declared height is 500 + 64 + 48 + 4 = 616 and all three panels appear. -/
theorem init_ui_height_and_panels_witness :
    stateWithRenderer.renderer3 = some { id := 5, width := 800, height := 500, antialias := true } ∧
    (Viewer.init_ui stateWithRenderer).2 = none ∧
    ((Viewer.init_ui stateWithRenderer).1.ui).map Widget.eraseIds = some (Widget.vbox 0
      (some 616)
      [Widget.hbox 0 (some 48)
        [Widget.button 0 "folder-open" "load_scene", Widget.button 0 "save" "save_scene",
         Widget.button 0 "search-plus" "zoom_in", Widget.button 0 "search-minus" "zoom_out"],
       Widget.hbox 0 (some 504)
        [Widget.gridbox 0 (some 504)
          [Widget.checkbox 0 true "Grid", Widget.checkbox 0 true "Axes"],
         Widget.box 0 (some 504) [Widget.rendererRef 0]],
       Widget.hbox 0 (some 48) [Widget.textRef 0]]) := by
  have h := init_ui_height_and_panels stateWithRenderer
    { id := 5, width := 800, height := 500, antialias := true } rfl
  refine ⟨rfl, h.1, ?_⟩
  rw [h.2]
  rfl

/-- C7 counterexample: with viewport "perspective" and `camera.near` set —
to 0 — the built camera does not use the configured value: the Python `or`
fallback also replaces set-but-falsy parameters, so the camera's near plane
is 1/10, not the configured 0. -/
theorem perspective_near_zero_not_used :
    cfgNearZero.view.camera.near = some 0 ∧
    ((Viewer.«show» render0 (Viewer.init cfgNearZero scene0)).1.camera3).map Camera3.nearOf =
      some (1 / 10) ∧
    ((Viewer.«show» render0 (Viewer.init cfgNearZero scene0)).1.camera3).map Camera3.nearOf ≠
      some 0 := by
  refine ⟨rfl, rfl, ?_⟩
  have h : ((Viewer.«show» render0 (Viewer.init cfgNearZero scene0)).1.camera3).map
      Camera3.nearOf = some (1 / 10) := rfl
  rw [h]
  intro hc
  have := Option.some.inj hc
  norm_num at this

/-- C7 (amended): camera setup is a two-way choice on the viewport.  "top"
yields an orthographic camera whose orbit controls have rotation disabled
and distance bounded to [1/10, 1000]; "perspective" yields a perspective
camera taking position/up/near/far/fov/target from the configuration, except
that the fixed fallbacks [0,-10,5] / [0,0,1] / 1/10 / 1000 / 50 / [0,0,0]
are substituted not only for unset parameters but for any parameter whose
configured value is Python-falsy (zero, or the empty list); in both cases
`show()` completes without error and the projection kind matches the
viewport. -/
theorem camera_setup_two_way (cfg : Config) (scene : Scene) (render : Nat → List Nat) :
    (cfg.view.viewport = "top" →
      (Viewer.«show» render (Viewer.init cfg scene)).2 = none ∧
      ((Viewer.«show» render (Viewer.init cfg scene)).1.camera3).map Camera3.isOrthographic =
        some true ∧
      (Viewer.«show» render (Viewer.init cfg scene)).1.controls3 =
        some { enableRotate := false, maxDistance := 1000, minDistance := 1 / 10 }) ∧
    (cfg.view.viewport = "perspective" →
      (Viewer.«show» render (Viewer.init cfg scene)).2 = none ∧
      ∃ pos upv nr fr fv tgt,
        (Viewer.«show» render (Viewer.init cfg scene)).1.camera3 =
          some (Camera3.perspective pos upv
            ((cfg.view.width : ℚ) / (cfg.view.height : ℚ)) nr fr fv tgt) ∧
        ((cfg.view.camera.near = none ∨ cfg.view.camera.near = some 0) → nr = 1 / 10) ∧
        (∀ v, cfg.view.camera.near = some v → v ≠ 0 → nr = v) ∧
        ((cfg.view.camera.far = none ∨ cfg.view.camera.far = some 0) → fr = 1000) ∧
        (∀ v, cfg.view.camera.far = some v → v ≠ 0 → fr = v) ∧
        ((cfg.view.camera.fov = none ∨ cfg.view.camera.fov = some 0) → fv = 50) ∧
        (∀ v, cfg.view.camera.fov = some v → v ≠ 0 → fv = v) ∧
        ((cfg.view.camera.position = none ∨ cfg.view.camera.position = some []) →
          pos = [0, -10, 5]) ∧
        (∀ v, cfg.view.camera.position = some v → v ≠ [] → pos = v) ∧
        ((cfg.view.camera.up = none ∨ cfg.view.camera.up = some []) → upv = [0, 0, 1]) ∧
        (∀ v, cfg.view.camera.up = some v → v ≠ [] → upv = v) ∧
        ((cfg.view.camera.target = none ∨ cfg.view.camera.target = some []) → tgt = [0, 0, 0]) ∧
        (∀ v, cfg.view.camera.target = some v → v ≠ [] → tgt = v)) := by
  obtain ⟨⟨w, h, bg, sg, sa, vp, cam⟩, ⟨tb, stb, ⟨sbs, items⟩⟩⟩ := cfg
  constructor
  · intro hvp
    simp only [] at hvp
    subst hvp
    cases sg <;> cases sa <;> cases tb <;> cases stb <;> cases sbs <;> exact ⟨rfl, rfl, rfl⟩
  · intro hvp
    simp only [] at hvp
    subst hvp
    cases sg <;> cases sa <;> cases tb <;> cases stb <;> cases sbs <;>
      refine ⟨rfl, pyOrVec cam.position [0, -10, 5], pyOrVec cam.up [0, 0, 1],
        pyOrNum cam.near (1 / 10), pyOrNum cam.far 1000, pyOrNum cam.fov 50,
        pyOrVec cam.target [0, 0, 0], rfl,
        ?_, ?_, ?_, ?_, ?_, ?_, ?_, ?_, ?_, ?_, ?_, ?_⟩ <;>
      first
        | (rintro (hv | hv) <;> simp only [] at hv <;> simp [pyOrNum, pyOrVec, hv])
        | (intro v hv hnz; simp only [] at hv; simp [pyOrNum, pyOrVec, hv, hnz])

/-- C7 witness: the "top" configuration gives an orthographic camera with
rotation disabled and distance bounds, the all-unset "perspective"
configuration succeeds with a perspective camera. -/
theorem camera_setup_two_way_witness :
    ((Viewer.«show» render0 (Viewer.init cfgTop scene0)).2 = none ∧
      ((Viewer.«show» render0 (Viewer.init cfgTop scene0)).1.camera3).map
        Camera3.isOrthographic = some true ∧
      (Viewer.«show» render0 (Viewer.init cfgTop scene0)).1.controls3 =
        some { enableRotate := false, maxDistance := 1000, minDistance := 1 / 10 }) ∧
    (Viewer.«show» render0 (Viewer.init cfg0 scene0)).2 = none ∧
    ((Viewer.«show» render0 (Viewer.init cfg0 scene0)).1.camera3).map
      Camera3.isPerspective = some true := by
  refine ⟨(camera_setup_two_way cfgTop scene0 render0).1 rfl, ?_, rfl⟩
  exact ((camera_setup_two_way cfg0 scene0 render0).2 rfl).1

/-- Drawing an already-drawn scene recomputes the same handles: `draw` is
idempotent because each object's handle list is replaced, not accumulated. -/
theorem Scene.draw_draw (render : Nat → List Nat) (s : Scene) :
    Scene.draw render (Scene.draw render s) = Scene.draw render s := by
  simp [Scene.draw, List.map_map, Function.comp]

/-- Composing the per-object draw step with itself is the draw step: the
second pass recomputes `guids` from the unchanged geometry. -/
theorem drawFun_comp (render : Nat → List Nat) :
    ((fun o : SceneObject => ({ geometry := o.geometry, guids := render o.geometry } :
        SceneObject)) ∘
      (fun o : SceneObject => ({ geometry := o.geometry, guids := render o.geometry } :
        SceneObject))) =
    (fun o : SceneObject => ({ geometry := o.geometry, guids := render o.geometry } :
        SceneObject)) := by
  funext o
  rfl

set_option maxHeartbeats 1000000 in
/-- C5: `show()` is idempotent up to widget identity: running the whole
setup a second time on the same viewer succeeds and leaves the viewer in
the same observable state (configuration, scene, scene-graph children,
camera, controls, renderer parameters, UI tree, status text) as a single
call; only the identities of the freshly allocated widget objects — which
the data-model section already declares non-preserved — and the display log
differ. -/
theorem show_idempotent_up_to_identity (cfg : Config) (scene : Scene) (render : Nat → List Nat)
    (hvp : cfg.view.viewport = "top" ∨ cfg.view.viewport = "perspective") :
    (Viewer.«show» render (Viewer.«show» render (Viewer.init cfg scene)).1).2 = none ∧
    ViewerState.observable
        (Viewer.«show» render (Viewer.«show» render (Viewer.init cfg scene)).1).1 =
      ViewerState.observable (Viewer.«show» render (Viewer.init cfg scene)).1 := by
  obtain ⟨⟨w, h, bg, sg, sa, vp, cam⟩, ⟨tb, stb, ⟨sbs, items⟩⟩⟩ := cfg
  rcases hvp with hvp | hvp <;> simp only [] at hvp <;> subst hvp <;>
    cases sg <;> cases sa <;> cases tb <;> cases stb <;> cases sbs <;>
      refine ⟨rfl, ?_⟩ <;>
      simp [ViewerState.observable, Viewer.«show», Viewer.init_webgl, Viewer.init_ui,
        Viewer.init, make_main, make_view3d, make_sidebar, make_toolbar, make_statusbar,
        Widget.eraseIds, eraseIdsList, eraseIdsList_make_sidebar_children, Scene3.eraseIds,
        Obj3.eraseId, Scene.draw, List.map_map, List.map_append, Function.comp, drawFun_comp]

/-- C5 witness: on the concrete full-featured configuration the second
`show()` succeeds and reproduces the observable state of the first. -/
theorem show_idempotent_up_to_identity_witness :
    (cfg0.view.viewport = "top" ∨ cfg0.view.viewport = "perspective") ∧
    (Viewer.«show» render0 (Viewer.«show» render0 (Viewer.init cfg0 scene0)).1).2 = none ∧
    ViewerState.observable
        (Viewer.«show» render0 (Viewer.«show» render0 (Viewer.init cfg0 scene0)).1).1 =
      ViewerState.observable (Viewer.«show» render0 (Viewer.init cfg0 scene0)).1 :=
  ⟨Or.inr rfl, show_idempotent_up_to_identity cfg0 scene0 render0 (Or.inr rfl)⟩

end CompasNotebook
